import Mathlib

set_option maxRecDepth 100000

/-!
Verification of `elastic-schema-tools`: a shallow embedding of the two
scripts `src/ecs-csv-to-sql.py` and `src/ecs-url-to-csv.py`.

Python values that occur in the row dictionaries (strings, booleans and
`None`) are modelled by `Val`.  A Python `dict` produced by
`dict(zip(header, row))` is modelled as an association list with the
Python insertion/overwrite semantics (`dictInsert`, `dictGet`,
`dictOfZip`).  Fallible Python code (statements that can raise) is
modelled with `Except String`, the error string naming the exception.

The CSV module, the HTTP fetch and the filesystem are the external
collaborators named by the design document: a run of the downloader is
therefore parameterised by a `parse : String -> List (List String)`
function (the CSV parse of a byte string) and by the `raw` byte string
that the fetch returns, and the filesystem is a name-to-contents
association list (`FileSys`).
-/

/-- A Python value as it occurs in the parsed rows: a string, a boolean
(after `_clean_data` coerced the `Indexed` column) or `None`. -/
inductive Val where
  | str : String → Val
  | bool : Bool → Val
  | none : Val
deriving DecidableEq, Repr

/-- A Python `dict` with string keys, as an association list in insertion
order.  Keys are unique because `dictInsert` overwrites in place. -/
abbrev Dict := List (String × Val)

/-- Python `d[k] = v`: overwrite in place if the key exists, else append. -/
def dictInsert : Dict → String → Val → Dict
  | [], k, v => [(k, v)]
  | (k2, v2) :: rest, k, v =>
    if k2 = k then (k, v) :: rest else (k2, v2) :: dictInsert rest k v

/-- Python `d[k]` as an `Option` (the caller turns `none` into a
`KeyError` where the source would raise). -/
def dictGet : Dict → String → Option Val
  | [], _ => Option.none
  | (k2, v) :: rest, k => if k2 = k then some v else dictGet rest k

/-- Python `dict(zip(header, row))`: pairs are truncated at the shorter
list, values enter as strings. -/
def dictOfZip (header row : List String) : Dict :=
  (List.zip header row).foldl (fun d p => dictInsert d p.1 (Val.str p.2)) []

/-- Python `bool(...)` on a row value: a string is truthy iff non-empty. -/
def pyTruthy : Val → Bool
  | Val.str s => !(s == "")
  | Val.bool b => b
  | Val.none => false

/-- Python `str(...)` on a row value, as used by f-string interpolation. -/
def pyStr : Val → String
  | Val.str s => s
  | Val.bool true => "True"
  | Val.bool false => "False"
  | Val.none => "None"

/-- First-occurrence deduplication with an accumulator of already seen
elements.  Models the key set of a Python `set(...)` / dict
comprehension: duplicates are dropped, first occurrence kept.  CPython
iterates a `set` in hash order; we fix first-insertion order, which the
design document leaves unspecified, and none of the proved statements
depend on the order. -/
def pyDedupAux {α : Type} [DecidableEq α] : List α → List α → List α
  | _, [] => []
  | seen, a :: rest =>
    if a ∈ seen then pyDedupAux seen rest
    else a :: pyDedupAux (a :: seen) rest

/-- The distinct elements of a list, first occurrences first. -/
def pyDedup {α : Type} [DecidableEq α] (l : List α) : List α := pyDedupAux [] l

/-- Whether an `Except` computation succeeded (the Python call returned
rather than raised). -/
def exceptIsOk {ε α : Type} : Except ε α → Bool
  | Except.ok _ => true
  | Except.error _ => false

/-! ## SchemaReader (identical function bodies in both source files) -/

/-- `ECS_CSV_COLUMN_COUNT` from both scripts. -/
def ECS_CSV_COLUMN_COUNT : Nat := 9

/-- The nine-column header of the ECS CSV, in its fixed order. -/
def header9 : List String :=
  ["ECS_Version", "Indexed", "Field_Set", "Field", "Type", "Level",
   "Normalization", "Example", "Description"]

/-- `_has_data(rawfile)`: at least a header row and one data row. -/
def _has_data (rawfile : List (List String)) : Bool :=
  decide (rawfile.length > 1)

/-- `_has_right_column_number(rawfile)`: the header has exactly 9 columns.
The `[]` case is unreachable from `readfile` (guarded by `_has_data`);
Python would raise an `IndexError` there. -/
def _has_right_column_number (rawfile : List (List String)) : Bool :=
  match rawfile with
  | [] => false
  | h :: _ => decide (h.length = ECS_CSV_COLUMN_COUNT)

/-- `_format_data(rawfile)`: zip the header names onto each data row. -/
def _format_data (rawfile : List (List String)) : List Dict :=
  match rawfile with
  | [] => []
  | h :: t => t.map (dictOfZip h)

/-- The body of the `for d in data` loop of `_clean_data`: coerce
`Indexed` with `bool(...)` and turn empty `Normalization` / `Example`
strings into `None`.  Each `d[...]` subscript can raise `KeyError`. -/
def cleanRow (d : Dict) : Except String Dict :=
  match dictGet d "Indexed" with
  | Option.none => Except.error "KeyError: Indexed"
  | some v =>
    let d1 := dictInsert d "Indexed" (Val.bool (pyTruthy v))
    match dictGet d1 "Normalization" with
    | Option.none => Except.error "KeyError: Normalization"
    | some nv =>
      let d2 := if nv = Val.str "" then dictInsert d1 "Normalization" Val.none else d1
      match dictGet d2 "Example" with
      | Option.none => Except.error "KeyError: Example"
      | some ev =>
        let d3 := if ev = Val.str "" then dictInsert d2 "Example" Val.none else d2
        Except.ok d3

/-- `_clean_data(data)`: clean every row in order; the first raising row
aborts the whole call. -/
def _clean_data : List Dict → Except String (List Dict)
  | [] => Except.ok []
  | d :: rest =>
    match cleanRow d with
    | Except.error e => Except.error e
    | Except.ok d2 => (_clean_data rest).map (fun ds => d2 :: ds)

/-- `readfile()`: parse, check shape (failing soft to `[]`), then format
and clean.  The argument is the already CSV-parsed file contents
(`_read_data` composed with the external `csv.reader`). -/
def readfile (raw : List (List String)) : Except String (List Dict) :=
  if !(_has_data raw) then Except.ok []
  else if !(_has_right_column_number raw) then Except.ok []
  else _clean_data (_format_data raw)

/-! ## SqlCompiler (`src/ecs-csv-to-sql.py`) -/

/-- The single-quote character, written by code point so that generated
SQL literals can be spelled without a bare quote in this file. -/
def squoteChar : Char := Char.ofNat 39

/-- Python `v.replace(chr(39), "")` on a string: drop every single
quote.  Used by `make_sql_preload` on values that contain a quote. -/
def removeSquotes (s : String) : String :=
  String.mk (s.data.filter (fun c => decide (c ≠ squoteChar)))

/-- Python `chr(39) in v`: the string contains a single quote. -/
def hasSquote (s : String) : Bool :=
  s.data.any (fun c => c == squoteChar)

/-- Occurrences of a character in a string. -/
def countChar (s : String) (c : Char) : Nat :=
  (s.data.filter (fun x => x == c)).length

/-- The list comprehension `[d[varname] for d in data]` used by
`_add_constraint`; a row without the key raises `KeyError`. -/
def columnValues (varname : String) : List Dict → Except String (List Val)
  | [] => Except.ok []
  | d :: rest =>
    match dictGet d varname with
    | some v => (columnValues varname rest).map (fun vs => v :: vs)
    | Option.none => Except.error ("KeyError: " ++ varname)

/-- The `for i, t in enumerate(acceptable_items)` loop of
`_add_constraint`: each item is rendered as a quoted `::bpchar` literal;
a comma follows every item but the last, and only the last item appends
the `]))` that closes the `ANY (ARRAY[` opened by the header.  On an
empty list the loop never runs and nothing is appended. -/
def constraintItems (total : Nat) : Nat → List Val → String
  | _, [] => ""
  | i, t :: rest =>
    "\n\t\t\t\x27" ++ pyStr t ++ "\x27::bpchar"
      ++ (if i < total - 1 then "," else "\n\t\t]))")
      ++ constraintItems total (i + 1) rest

/-- `_add_constraint(schema_name, table_name, varname, data)`. -/
def _add_constraint (schema_name table_name varname : String)
    (data : List Dict) : Except String String := do
  let vals ← columnValues varname data
  let acceptable_items := pyDedup vals
  Except.ok ("CONSTRAINT \"" ++ schema_name ++ "_" ++ table_name ++ "_"
    ++ varname ++ "_oneof\"\n\t\tCHECK (\n\t\t\t\"" ++ varname
    ++ "\" = ANY (ARRAY["
    ++ constraintItems acceptable_items.length 0 acceptable_items)

/-- `_make_primary_key(fields)`. -/
def _make_primary_key (fields : List String) : String :=
  "PRIMARY KEY ("
    ++ String.intercalate ", " (fields.map (fun x => "\"" ++ x ++ "\""))
    ++ ")"

/-- The fixed column block of the `CREATE TABLE` statement (the
triple-quoted literal appended to `TABLE` in `make_sql`). -/
def tableColumnBlock : String :=
  "\n        \"ECS_Version\" character(16) NOT NULL,"
  ++ "\n        \"Indexed\" boolean NOT NULL,"
  ++ "\n        \"Field_Set\" character(16) NOT NULL,"
  ++ "\n        \"Field\" character(96) NOT NULL,"
  ++ "\n        \"Type\" character(16) NOT NULL,"
  ++ "\n        \"Level\" character(16) NOT NULL,"
  ++ "\n        \"Normalization\" character(16),"
  ++ "\n        \"Example\" text,"
  ++ "\n        \"Description\" text,\n        "

/-- `make_sql(data, schema_name, table_name, table_owner)`.  The
`for t in constrained_fields` loop over the fixed literal list
`["Type", "Field_Set", "Level"]` is unrolled; only the last element
omits the comma after its constraint. -/
def make_sql (data : List Dict) (schema_name table_name table_owner : String) :
    Except String String := do
  let c1 ← _add_constraint schema_name table_name "Type" data
  let c2 ← _add_constraint schema_name table_name "Field_Set" data
  let c3 ← _add_constraint schema_name table_name "Level" data
  Except.ok ("CREATE TABLE IF NOT EXISTS \"" ++ schema_name ++ "\".\""
    ++ table_name ++ "\" (" ++ tableColumnBlock
    ++ _make_primary_key ["ECS_Version", "Field_Set", "Field", "Type", "Level"]
    ++ ","
    ++ "\n\t" ++ c1 ++ "," ++ "\t"
    ++ "\n\t" ++ c2 ++ "," ++ "\t"
    ++ "\n\t" ++ c3 ++ "\t"
    ++ "\n\t);\n\n"
    ++ "ALTER TABLE IF EXISTS \"" ++ schema_name ++ "\".\"" ++ table_name
    ++ "\"\n\tOWNER to " ++ table_owner ++ ";")

/-- The `fields` list of `make_sql_preload`. -/
def fields9 : List String :=
  ["ECS_Version", "Indexed", "Field_Set", "Field", "Type", "Level",
   "Normalization", "Example", "Description"]

/-- The value-rendering `if` chain in the `for k, v in d.items()` loop of
`make_sql_preload`: `None` becomes the token `NULL`, the booleans become
the quoted literals, and a string is single quoted, with every embedded
single quote removed (not doubled) when one is present. -/
def renderVal (v : Val) : String :=
  match v with
  | Val.none => "NULL"
  | Val.bool true => "\x27true\x27"
  | Val.bool false => "\x27false\x27"
  | Val.str s =>
    if hasSquote s then "\x27" ++ removeSquotes s ++ "\x27"
    else "\x27" ++ s ++ "\x27"

/-- The comprehension `[prepped[x] for x in fields]`: look up each field
of the row, rendered; a missing field raises `KeyError`. -/
def lookupRendered (d : Dict) : List String → Except String (List String)
  | [] => Except.ok []
  | f :: rest =>
    match dictGet d f with
    | some v => (lookupRendered d rest).map (fun ss => renderVal v :: ss)
    | Option.none => Except.error ("KeyError: " ++ f)

/-- The `for i, d in enumerate(data)` loop of `make_sql_preload`: one
parenthesised tuple per row, a comma after every row but the last, and
the `"\n\t\t"` separator after every row. -/
def preloadRows (total : Nat) : Nat → List Dict → Except String String
  | _, [] => Except.ok ""
  | i, d :: rest => do
    let vals ← lookupRendered d fields9
    let restS ← preloadRows total (i + 1) rest
    Except.ok ("(" ++ String.intercalate ", " vals ++ ")"
      ++ (if i < total - 1 then "," else "") ++ "\n\t\t" ++ restS)

/-- `make_sql_preload(data, schema_name, table_name, table_owner)` (the
owner argument is unused, as in the source). -/
def make_sql_preload (data : List Dict)
    (schema_name table_name _table_owner : String) : Except String String := do
  let body ← preloadRows data.length 0 data
  Except.ok ("\n\nINSERT INTO \"" ++ schema_name ++ "\".\"" ++ table_name
    ++ "\"\n\t(\n\t\t"
    ++ String.intercalate ", " (fields9.map (fun x => "\"" ++ x ++ "\""))
    ++ "\n\t)\n\t\tVALUES\n\t\t" ++ body ++ ";")

/-! ## ChangeDetector (`src/ecs-url-to-csv.py`)

The global `CACHE["CONTENT"]["OLD"]` / `["NEW"]` cells (either `None` or
a list of parsed rows) become two explicit `Option (List Dict)`
arguments. -/

/-- Iterating a `None` cell (as `set([... for x in None])` or a dict
comprehension would) raises `TypeError`. -/
def expectList (o : Option (List Dict)) : Except String (List Dict) :=
  match o with
  | some l => Except.ok l
  | Option.none => Except.error "TypeError: NoneType is not iterable"

/-- The inner `for ii, vv in enumerate(new_schema_items)` loop of
`_ECS_Version_changed` for a fixed `v`: `has_changes` is set at the
first `vv` different from `v`, and the loop then breaks. -/
def _version_inner (v : Val) : List Val → Bool
  | [] => false
  | vv :: rest => if v = vv then _version_inner v rest else true

/-- The outer `for i, v in enumerate(old_schema_items)` loop of
`_ECS_Version_changed`: breaks at the first `v` for which the inner
loop set `has_changes`. -/
def _version_outer (new_schema_items : List Val) : List Val → Bool
  | [] => false
  | v :: rest =>
    if _version_inner v new_schema_items then true
    else _version_outer new_schema_items rest

/-- `_ECS_Version_changed()`: compare the deduplicated `ECS_Version`
value sets of the old and new snapshots, first by size, then by the
nested all-pairs loop above. -/
def _ECS_Version_changed (old new : Option (List Dict)) :
    Except String Bool := do
  let o ← expectList old
  let old_schema_items := pyDedup (← columnValues "ECS_Version" o)
  let n ← expectList new
  let new_schema_items := pyDedup (← columnValues "ECS_Version" n)
  if old_schema_items.length ≠ new_schema_items.length then
    return true
  return _version_outer new_schema_items old_schema_items

/-- `_length_changed()`: an absent new snapshot is no change, an absent
old snapshot is a change, otherwise compare row counts. -/
def _length_changed (old new : Option (List Dict)) : Bool :=
  match new with
  | Option.none => false
  | some n =>
    match old with
    | Option.none => true
    | some o => decide (o.length ≠ n.length)

/-- `_lines_changed()`: the key sets of `{hash(str(v)): v}` over the two
snapshots; a key of the new map missing from the old map is a change
(breaking at the first).  `hash(str(v))` is modelled by the row itself:
`str` is injective on these rows and hash collisions are ignored. -/
def _lines_changed (old new : Option (List Dict)) : Except String Bool := do
  let o ← expectList old
  let n ← expectList new
  let old_keys := pyDedup o
  let new_keys := pyDedup n
  return new_keys.any (fun k => decide (¬ k ∈ old_keys))

/-- `content_has_changed()`: the three witnesses in source order, each
one returning `True` immediately when positive. -/
def content_has_changed (old new : Option (List Dict)) :
    Except String Bool := do
  let has_changes := false
  if _length_changed old new then
    return true
  if (← _ECS_Version_changed old new) then
    return true
  if (← _lines_changed old new) then
    return true
  return has_changes

/-! ## Rotator and `main` (`src/ecs-url-to-csv.py`)

The filesystem is an association list from file name to contents; only
the directory `ECS_DIR` is ever touched, so bare file names stand for
the full paths. -/

/-- File name to contents, in creation order. -/
abbrev FileSys := List (String × String)

/-- Contents of a named file, if it exists. -/
def fsRead : FileSys → String → Option String
  | [], _ => Option.none
  | (m, c) :: rest, n => if m = n then some c else fsRead rest n

/-- `open(name, "w")` followed by `write(content)`: overwrite in place
or create. -/
def fsWrite : FileSys → String → String → FileSys
  | [], n, c => [(n, c)]
  | (m, d) :: rest, n, c =>
    if m = n then (n, c) :: rest else (m, d) :: fsWrite rest n c

/-- `os.remove(name)`. -/
def fsRemove : FileSys → String → FileSys
  | [], _ => []
  | (m, c) :: rest, n =>
    if m = n then fsRemove rest n else (m, c) :: fsRemove rest n

/-- `Path(name).exists()`. -/
def fsExists (fs : FileSys) (n : String) : Bool :=
  (fsRead fs n).isSome

/-- `ECS_CSV_FILE` (the cache file `ecs.csv`). -/
def ECS_CSV_FILE : String := "ecs.csv"

/-- `ECS_CSV_TEMFILE` (the scratch download file). -/
def ECS_CSV_TEMFILE : String := "ecs-tempfile.csv"

/-- `cleanup(verbose)`: remove the temp file if it exists (the prints
have no filesystem effect). -/
def cleanup (fs : FileSys) : FileSys :=
  if fsExists fs ECS_CSV_TEMFILE then fsRemove fs ECS_CSV_TEMFILE else fs

/-- `update_content()`.  The archive name
`ECS_CSV_FILE.name.replace(".csv", "." + schema + ".csv")` is the string
`"ecs." ++ schema ++ ".csv"` (the one occurrence of `".csv"` in
`"ecs.csv"` is at its end).  The log line then interpolates
`oldfile_name.name`, but `oldfile_name` is a `str` and `str` has no
attribute `name`, so the f-string raises `AttributeError` before any
file is opened; the archive copy and the cache overwrite that follow in
the source are unreachable. -/
def update_content (old : List Dict) (_raw : String) (_fs : FileSys) :
    Except String FileSys := do
  let lastRow ←
    match old.getLast? with
    | some d => Except.ok d
    | Option.none => Except.error "IndexError: list index out of range"
  let _oldfile_schema ←
    match dictGet lastRow "ECS_Version" with
    | some v => Except.ok (pyStr v)
    | Option.none => Except.error "KeyError: ECS_Version"
  Except.error "AttributeError: str object has no attribute name"

/-- The exit status and final filesystem of one run of `main(url)`.  An
`exit` of `Except.error e` is the process dying on the uncaught
exception `e` (a non-zero status); `Except.ok n` is `sys.exit(n)`. -/
structure RunOutcome where
  exit : Except String Nat
  fs : FileSys

/-- `main(url)`.  `parse` is the external CSV parse of a byte string and
`raw` the byte string the fetch of `url` returns.  In order:
`cleanup(False)`; `init_cache` reads the cache file, downloads `raw`
into the temp file and reads it back (`_check_new_cache_loaded` cannot
fire, `readfile` never returns `None`, and `_init_changes_cache` has no
observable effect); `content_has_changed` inside `try` (an exception
there prints and calls `sys.exit(1)`); on a detected change
`update_content()` (whose exception is uncaught); then `cleanup(True)`
and `sys.exit(0)`. -/
def main_run (parse : String → List (List String)) (raw : String)
    (fs0 : FileSys) : RunOutcome :=
  let fs1 := cleanup fs0
  match fsRead fs1 ECS_CSV_FILE with
  | Option.none => { exit := Except.error "FileNotFoundError: ecs.csv", fs := fs1 }
  | some cacheBytes =>
    match readfile (parse cacheBytes) with
    | Except.error e => { exit := Except.error e, fs := fs1 }
    | Except.ok old =>
      let fs2 := fsWrite fs1 ECS_CSV_TEMFILE raw
      match readfile (parse raw) with
      | Except.error e => { exit := Except.error e, fs := fs2 }
      | Except.ok newRows =>
        match content_has_changed (some old) (some newRows) with
        | Except.error _ => { exit := Except.ok 1, fs := fs2 }
        | Except.ok changed =>
          if changed then
            match update_content old raw fs2 with
            | Except.error e => { exit := Except.error e, fs := fs2 }
            | Except.ok fs3 => { exit := Except.ok 0, fs := cleanup fs3 }
          else { exit := Except.ok 0, fs := cleanup fs2 }

/-! ## Concrete data used by the counterexamples and witnesses -/

/-- A well-formed CSV data row carrying the given `ECS_Version`. -/
def sampleRow (v : String) : List String :=
  [v, "true", "host", "host.name", "keyword", "core", "", "", "Hostname"]

/-- The cleaned form of `sampleRow v`, as `readfile` returns it. -/
def sampleCleanRow (v : String) : Dict :=
  [("ECS_Version", Val.str v), ("Indexed", Val.bool true),
   ("Field_Set", Val.str "host"), ("Field", Val.str "host.name"),
   ("Type", Val.str "keyword"), ("Level", Val.str "core"),
   ("Normalization", Val.none), ("Example", Val.none),
   ("Description", Val.str "Hostname")]

/-- A snapshot whose rows carry two distinct `ECS_Version` values. -/
def snapTwoVersions : List Dict :=
  [sampleCleanRow "1.0.0", sampleCleanRow "2.0.0"]

/-- A 9-column header that lacks an `ECS_Version` column (but keeps the
three columns `_clean_data` needs), so that reading succeeds while the
version witness of the change detector raises `KeyError`. -/
def headerNoVersion : List String :=
  ["Version", "Indexed", "f3", "f4", "f5", "f6",
   "Normalization", "Example", "f9"]

/-- A CSV parse on which the cached and the fetched file both read fine,
have equal row counts, and make `_ECS_Version_changed` raise. -/
def parseDetectRaise : String → List (List String) := fun s =>
  if s = "OLDBYTES" then [headerNoVersion, ["1", "1", "1", "1", "1", "1", "1", "1", "1"]]
  else [headerNoVersion, ["2", "2", "2", "2", "2", "2", "2", "2", "2"]]

/-- A CSV parse on which both the cached and the fetched file fail the
shape checks, so both snapshots are empty. -/
def parseBothUnusable : String → List (List String) := fun s =>
  if s = "OLDBYTES" then [["x"]] else [["a", "b"]]

/-- A CSV parse on which cached and fetched files are the same valid
single-version snapshot. -/
def parseNoChange : String → List (List String) := fun _ =>
  [header9, sampleRow "8.0.0"]

/-- A CSV parse with a valid nonempty cached file and a fetched file
with no data rows (an unusable snapshot). -/
def parseNewUnusable : String → List (List String) := fun s =>
  if s = "OLDBYTES" then [header9, sampleRow "7.0.0"] else [["bad"]]

/-! ## Helper lemmas -/

/-- Removing a file makes it unreadable. -/
lemma fsRead_fsRemove_self (fs : FileSys) (n : String) :
    fsRead (fsRemove fs n) n = Option.none := by
  induction fs with
  | nil => rfl
  | cons p rest ih =>
    obtain ⟨m, c⟩ := p
    by_cases hm : m = n
    · simp [fsRemove, hm, ih]
    · simp [fsRemove, fsRead, hm, ih]

/-- Removing one file leaves the others readable. -/
lemma fsRead_fsRemove_other (fs : FileSys) (n m : String) (h : m ≠ n) :
    fsRead (fsRemove fs n) m = fsRead fs m := by
  induction fs with
  | nil => rfl
  | cons p rest ih =>
    obtain ⟨k, c⟩ := p
    by_cases hk : k = n
    · subst hk
      simp [fsRemove, fsRead, Ne.symm h, ih]
    · by_cases hk2 : k = m
      · subst hk2
        simp [fsRemove, fsRead, hk]
      · simp [fsRemove, fsRead, hk, hk2, ih]

/-- Writing a file leaves the others untouched. -/
lemma fsRead_fsWrite_other (fs : FileSys) (n m : String) (c : String)
    (h : m ≠ n) : fsRead (fsWrite fs n c) m = fsRead fs m := by
  induction fs with
  | nil => simp [fsWrite, fsRead, Ne.symm h]
  | cons p rest ih =>
    obtain ⟨k, d⟩ := p
    by_cases hk : k = n
    · subst hk
      simp [fsWrite, fsRead, Ne.symm h, h]
    · simp [fsWrite, fsRead, hk, ih]

/-- After `cleanup` the temp file does not exist. -/
lemma fsRead_cleanup_temp (fs : FileSys) :
    fsRead (cleanup fs) ECS_CSV_TEMFILE = Option.none := by
  unfold cleanup
  by_cases h : fsExists fs ECS_CSV_TEMFILE
  · simp [h, fsRead_fsRemove_self]
  · simp [h]
    unfold fsExists at h
    exact Option.not_isSome_iff_eq_none.mp h

/-- `cleanup` touches only the temp file. -/
lemma fsRead_cleanup_other (fs : FileSys) (n : String)
    (h : n ≠ ECS_CSV_TEMFILE) : fsRead (cleanup fs) n = fsRead fs n := by
  unfold cleanup
  by_cases he : fsExists fs ECS_CSV_TEMFILE
  · simp [he, fsRead_fsRemove_other fs ECS_CSV_TEMFILE n h]
  · simp [he]

/-- `update_content` never returns: one of `IndexError`, `KeyError` or
(at its log line) `AttributeError` is always raised. -/
lemma update_content_not_ok (old : List Dict) (raw : String) (fs : FileSys) :
    exceptIsOk (update_content old raw fs) = false := by
  unfold update_content
  cases hl : old.getLast? with
  | none => rfl
  | some d =>
    cases hg : dictGet d "ECS_Version" with
    | none => simp [hg, Bind.bind, Except.bind, exceptIsOk]
    | some v => simp [hg, Bind.bind, Except.bind, exceptIsOk]

/-- On a snapshot whose rows all carry the version `v0`,
`[x["ECS_Version"] for x in rows]` is a constant list. -/
lemma columnValues_const (S : List Dict) (v0 : String)
    (h : ∀ d ∈ S, dictGet d "ECS_Version" = some (Val.str v0)) :
    columnValues "ECS_Version" S =
      Except.ok (List.replicate S.length (Val.str v0)) := by
  induction S with
  | nil => rfl
  | cons d rest ih =>
    have hd := h d (List.mem_cons_self d rest)
    have hrest := ih (fun x hx => h x (List.mem_cons_of_mem d hx))
    simp [columnValues, hd, hrest, List.replicate, Except.map]

/-- Deduplicating a constant list yields nothing new beyond `seen`. -/
lemma pyDedupAux_replicate {α : Type} [DecidableEq α] (x : α) :
    ∀ (n : Nat) (seen : List α),
      pyDedupAux seen (List.replicate n x) =
        if x ∈ seen then [] else if n = 0 then [] else [x] := by
  intro n
  induction n with
  | zero => intro seen; by_cases h : x ∈ seen <;> simp [pyDedupAux, h]
  | succ m ih =>
    intro seen
    by_cases h : x ∈ seen
    · simp [List.replicate, pyDedupAux, h, ih]
    · simp [List.replicate, pyDedupAux, h, ih]

/-- `set(...)` of a constant list is empty or a singleton. -/
lemma pyDedup_replicate {α : Type} [DecidableEq α] (x : α) (n : Nat) :
    pyDedup (List.replicate n x) = if n = 0 then [] else [x] := by
  simp [pyDedup, pyDedupAux_replicate]

/-- No element of a list is missing from that same list. -/
lemma any_not_mem_self {α : Type} [DecidableEq α] (l : List α) :
    (l.any fun k => decide (¬ k ∈ l)) = false := by
  rw [List.any_eq_false]
  intro x hx
  simp [hx]

/-- A positive count witness short-circuits `content_has_changed`. -/
lemma content_of_length_true (old new : Option (List Dict))
    (h : _length_changed old new = true) :
    content_has_changed old new = Except.ok true := by
  simp [content_has_changed, h, pure, Except.pure]

/-- Comparing a snapshot with itself reports no change, provided all its
rows carry one and the same `ECS_Version` value. -/
lemma content_self_single (S : List Dict) (v0 : String)
    (h : ∀ d ∈ S, dictGet d "ECS_Version" = some (Val.str v0)) :
    content_has_changed (some S) (some S) = Except.ok false := by
  have hlen : _length_changed (some S) (some S) = false := by
    simp [_length_changed]
  have hver : _ECS_Version_changed (some S) (some S) = Except.ok false := by
    have hc := columnValues_const S v0 h
    cases S with
    | nil => rfl
    | cons d rest =>
      simp [_ECS_Version_changed, expectList, hc, Bind.bind, Except.bind,
            pyDedup_replicate, pyDedupAux_replicate, pyDedup,
            _version_outer, _version_inner, pure, Except.pure]
  have hlin : _lines_changed (some S) (some S) = Except.ok false := by
    simp [_lines_changed, expectList, Bind.bind, Except.bind, pure, Except.pure,
          any_not_mem_self]
  simp [content_has_changed, hlen, hver, hlin, Bind.bind, Except.bind, pure,
        Except.pure]

/-- Every run that reaches `sys.exit(0)` went through the final
`cleanup(True)`, so its temp file is gone.  (The rotation branch cannot
reach `sys.exit(0)`: `update_content` always raises.) -/
lemma main_exit0_temp_gone (parse : String → List (List String))
    (raw : String) (fs0 : FileSys)
    (h : (main_run parse raw fs0).exit = Except.ok 0) :
    fsRead (main_run parse raw fs0).fs ECS_CSV_TEMFILE = Option.none := by
  simp only [main_run] at h ⊢
  cases hc : fsRead (cleanup fs0) ECS_CSV_FILE with
  | none => rw [hc] at h; simp at h
  | some cb =>
    rw [hc] at h
    dsimp only at h ⊢
    cases hr : readfile (parse cb) with
    | error e => rw [hr] at h; simp at h
    | ok old =>
      rw [hr] at h
      dsimp only at h ⊢
      cases hn : readfile (parse raw) with
      | error e => rw [hn] at h; simp at h
      | ok newRows =>
        rw [hn] at h
        dsimp only at h ⊢
        cases hch : content_has_changed (some old) (some newRows) with
        | error e => rw [hch] at h; simp at h
        | ok changed =>
          rw [hch] at h
          dsimp only at h ⊢
          cases changed with
          | true =>
            rw [if_pos rfl] at h ⊢
            cases hu : update_content old raw
                (fsWrite (cleanup fs0) ECS_CSV_TEMFILE raw) with
            | error e => rw [hu] at h; simp at h
            | ok fs3 =>
              have hno := update_content_not_ok old raw
                (fsWrite (cleanup fs0) ECS_CSV_TEMFILE raw)
              rw [hu] at hno
              simp [exceptIsOk] at hno
          | false =>
            rw [if_neg Bool.false_ne_true]
            exact fsRead_cleanup_temp _

/-- A run whose cache file reads back, whose download reads back, and on
which no change is detected, reaches `sys.exit(0)`. -/
lemma main_nochange_exit0 (parse : String → List (List String))
    (raw : String) (fs0 : FileSys) (cb : String) (old newRows : List Dict)
    (hcache : fsRead fs0 ECS_CSV_FILE = some cb)
    (hold : readfile (parse cb) = Except.ok old)
    (hnew : readfile (parse raw) = Except.ok newRows)
    (hch : content_has_changed (some old) (some newRows) = Except.ok false) :
    (main_run parse raw fs0).exit = Except.ok 0 := by
  have hc2 : fsRead (cleanup fs0) ECS_CSV_FILE = some cb := by
    rw [fsRead_cleanup_other fs0 ECS_CSV_FILE (by decide)]
    exact hcache
  simp only [main_run]
  rw [hc2]
  dsimp only
  rw [hold]
  dsimp only
  rw [hnew]
  dsimp only
  rw [hch]
  dsimp only
  rw [if_neg Bool.false_ne_true]

/-- A run with a usable nonempty cached snapshot whose fetched content
fails to load as a usable snapshot (empty or raising) dies on an
uncaught exception, and the cache file keeps its old bytes: either the
reader raised, or the empty new snapshot triggers the count witness and
the rotation then raises before writing. -/
lemma main_unusable_new (parse : String → List (List String))
    (raw : String) (fs0 : FileSys) (cb : String) (old : List Dict)
    (hcache : fsRead fs0 ECS_CSV_FILE = some cb)
    (hold : readfile (parse cb) = Except.ok old)
    (holdne : old ≠ [])
    (hnew : readfile (parse raw) = Except.ok [] ∨
      ∃ e, readfile (parse raw) = Except.error e) :
    (∃ e2, (main_run parse raw fs0).exit = Except.error e2)
      ∧ fsRead (main_run parse raw fs0).fs ECS_CSV_FILE = some cb := by
  have hc2 : fsRead (cleanup fs0) ECS_CSV_FILE = some cb := by
    rw [fsRead_cleanup_other fs0 ECS_CSV_FILE (by decide)]
    exact hcache
  have hfs2 : fsRead (fsWrite (cleanup fs0) ECS_CSV_TEMFILE raw) ECS_CSV_FILE
      = some cb := by
    rw [fsRead_fsWrite_other _ _ _ _ (by decide)]
    exact hc2
  simp only [main_run]
  rw [hc2]
  dsimp only
  rw [hold]
  dsimp only
  rcases hnew with hnew | ⟨e, hnew⟩
  · rw [hnew]
    dsimp only
    have hlen : _length_changed (some old) (some ([] : List Dict)) = true := by
      have hne : old.length ≠ 0 := by
        simpa [List.length_eq_zero] using holdne
      simp [_length_changed, hne]
    have hch : content_has_changed (some old) (some []) = Except.ok true :=
      content_of_length_true _ _ hlen
    rw [hch]
    dsimp only
    rw [if_pos rfl]
    cases hu : update_content old raw (fsWrite (cleanup fs0) ECS_CSV_TEMFILE raw) with
    | error e2 =>
      dsimp only
      exact ⟨⟨e2, rfl⟩, hfs2⟩
    | ok fs3 =>
      have hno := update_content_not_ok old raw
        (fsWrite (cleanup fs0) ECS_CSV_TEMFILE raw)
      rw [hu] at hno
      simp [exceptIsOk] at hno
  · rw [hnew]
    dsimp only
    exact ⟨⟨e, rfl⟩, hfs2⟩

/-- Cleaning a row zipped from the canonical header and nine raw values:
`ECS_Version` through `Description` pass through verbatim, `Indexed` is
coerced by non-empty-string truthiness, and `Normalization` / `Example`
become `None` exactly on the empty string. -/
lemma cleanRow_full (v0 v1 v2 v3 v4 v5 v6 v7 v8 : String) :
    cleanRow (dictOfZip header9 [v0, v1, v2, v3, v4, v5, v6, v7, v8]) =
      Except.ok [("ECS_Version", Val.str v0),
                 ("Indexed", Val.bool (!(v1 == ""))),
                 ("Field_Set", Val.str v2),
                 ("Field", Val.str v3),
                 ("Type", Val.str v4),
                 ("Level", Val.str v5),
                 ("Normalization", if v6 = "" then Val.none else Val.str v6),
                 ("Example", if v7 = "" then Val.none else Val.str v7),
                 ("Description", Val.str v8)] := by
  by_cases h6 : v6 = "" <;> by_cases h7 : v7 = "" <;>
    simp [cleanRow, dictOfZip, dictInsert, dictGet, header9, pyTruthy, h6, h7]

/-- Cleaning a row zipped from the canonical header and only eight raw
values (no `Description` cell) still succeeds. -/
lemma cleanRow_eight (v0 v1 v2 v3 v4 v5 v6 v7 : String) :
    cleanRow (dictOfZip header9 [v0, v1, v2, v3, v4, v5, v6, v7]) =
      Except.ok [("ECS_Version", Val.str v0),
                 ("Indexed", Val.bool (!(v1 == ""))),
                 ("Field_Set", Val.str v2),
                 ("Field", Val.str v3),
                 ("Type", Val.str v4),
                 ("Level", Val.str v5),
                 ("Normalization", if v6 = "" then Val.none else Val.str v6),
                 ("Example", if v7 = "" then Val.none else Val.str v7)] := by
  by_cases h6 : v6 = "" <;> by_cases h7 : v7 = "" <;>
    simp [cleanRow, dictOfZip, dictInsert, dictGet, header9, pyTruthy, h6, h7]

/-- Cells beyond the ninth are dropped by `zip`. -/
lemma dictOfZip_extra (v0 v1 v2 v3 v4 v5 v6 v7 v8 : String)
    (rest : List String) :
    dictOfZip header9 (v0 :: v1 :: v2 :: v3 :: v4 :: v5 :: v6 :: v7 :: v8 :: rest)
      = dictOfZip header9 [v0, v1, v2, v3, v4, v5, v6, v7, v8] := rfl

/-- A data row with at least eight cells cleans successfully. -/
lemma cleanRow_ok_of_long (r : List String) (hr : 8 ≤ r.length) :
    ∃ d2, cleanRow (dictOfZip header9 r) = Except.ok d2 := by
  match r, hr with
  | v0 :: v1 :: v2 :: v3 :: v4 :: v5 :: v6 :: v7 :: rest, _ =>
    cases rest with
    | nil => exact ⟨_, cleanRow_eight v0 v1 v2 v3 v4 v5 v6 v7⟩
    | cons v8 rest2 =>
      rw [dictOfZip_extra]
      exact ⟨_, cleanRow_full v0 v1 v2 v3 v4 v5 v6 v7 v8⟩

/-- If every row cleans, the whole snapshot cleans, row for row. -/
lemma clean_data_ok (rows : List Dict)
    (h : ∀ d ∈ rows, ∃ y, cleanRow d = Except.ok y) :
    ∃ ds, _clean_data rows = Except.ok ds ∧ ds.length = rows.length := by
  induction rows with
  | nil => exact ⟨[], rfl, rfl⟩
  | cons d rest ih =>
    obtain ⟨y, hy⟩ := h d (List.mem_cons_self d rest)
    obtain ⟨ds, hds, hlen⟩ := ih (fun x hx => h x (List.mem_cons_of_mem d hx))
    refine ⟨y :: ds, ?_, by simp [hlen]⟩
    simp [_clean_data, hy, hds, Except.map]

/-- An error in a suffix of the snapshot propagates through a prefix of
rows that clean fine. -/
lemma clean_data_append_error (l1 l2 : List Dict)
    (h : ∀ d ∈ l1, ∃ y, cleanRow d = Except.ok y) (e : String)
    (he : _clean_data l2 = Except.error e) :
    _clean_data (l1 ++ l2) = Except.error e := by
  induction l1 with
  | nil => simpa using he
  | cons d rest ih =>
    obtain ⟨y, hy⟩ := h d (List.mem_cons_self d rest)
    have htail := ih (fun x hx => h x (List.mem_cons_of_mem d hx))
    simp [_clean_data, hy, htail, Except.map]

/-- Fewer than two CSV rows: `readfile` fails soft to the empty
snapshot. -/
lemma readfile_short (raw : List (List String)) (h : raw.length ≤ 1) :
    readfile raw = Except.ok [] := by
  have hd : _has_data raw = false := by
    simp [_has_data]
    omega
  simp [readfile, hd]

/-- A header without exactly nine columns: `readfile` fails soft to the
empty snapshot. -/
lemma readfile_wrong_columns (h : List String) (t : List (List String))
    (hne : h.length ≠ 9) : readfile (h :: t) = Except.ok [] := by
  cases t with
  | nil => simp [readfile, _has_data]
  | cons r rest =>
    have h1 : _has_data (h :: r :: rest) = true := by
      simp [_has_data]
    have h2 : _has_right_column_number (h :: r :: rest) = false := by
      simp [_has_right_column_number, ECS_CSV_COLUMN_COUNT, hne]
    simp [readfile, h1, h2]

/-- With the canonical header and data rows of at least eight cells,
`readfile` returns one cleaned dict per data row. -/
lemma readfile_long_rows (rows : List (List String))
    (h : ∀ r ∈ rows, 8 ≤ r.length) :
    ∃ ds, readfile (header9 :: rows) = Except.ok ds
      ∧ ds.length = rows.length := by
  cases rows with
  | nil => exact ⟨[], by simp [readfile, _has_data], rfl⟩
  | cons r rest =>
    have h1 : _has_data (header9 :: r :: rest) = true := by
      simp [_has_data]
    have h2 : _has_right_column_number (header9 :: r :: rest) = true := by
      simp [_has_right_column_number, header9, ECS_CSV_COLUMN_COUNT]
    have hclean : ∀ d ∈ (r :: rest).map (dictOfZip header9),
        ∃ y, cleanRow d = Except.ok y := by
      intro d hd
      obtain ⟨rr, hrr, hmap⟩ := List.mem_map.mp hd
      subst hmap
      exact cleanRow_ok_of_long rr (h rr hrr)
    obtain ⟨ds, hds, hlen⟩ := clean_data_ok _ hclean
    refine ⟨ds, ?_, by simp [hlen]⟩
    simp only [readfile, h1, h2, Bool.not_true, Bool.false_eq_true, if_false,
               _format_data]
    simpa using hds

/-- With the canonical header, a data row too short to carry an
`Indexed` cell makes `readfile` raise `KeyError` (after any earlier,
long-enough rows cleaned fine). -/
lemma readfile_short_row_error (pre : List (List String)) (r : List String)
    (rest : List (List String)) (hpre : ∀ p ∈ pre, 8 ≤ p.length)
    (hr : r.length < 2) :
    readfile (header9 :: (pre ++ r :: rest)) =
      Except.error "KeyError: Indexed" := by
  have h1 : _has_data (header9 :: (pre ++ r :: rest)) = true := by
    simp [_has_data]
  have h2 : _has_right_column_number (header9 :: (pre ++ r :: rest)) = true := by
    simp [_has_right_column_number, header9, ECS_CSV_COLUMN_COUNT]
  have herr : _clean_data ((r :: rest).map (dictOfZip header9)) =
      Except.error "KeyError: Indexed" := by
    match r, hr with
    | [], _ =>
      simp [_clean_data, cleanRow, dictOfZip, dictGet]
    | [a], _ =>
      simp [_clean_data, cleanRow, dictOfZip, dictInsert, dictGet, header9]
  have hpre2 : ∀ d ∈ pre.map (dictOfZip header9),
      ∃ y, cleanRow d = Except.ok y := by
    intro d hd
    obtain ⟨rr, hrr, hmap⟩ := List.mem_map.mp hd
    subst hmap
    exact cleanRow_ok_of_long rr (hpre rr hrr)
  have hall := clean_data_append_error _ _ hpre2 _ herr
  simp only [readfile, h1, h2, _format_data, List.map_append,
             Bool.not_true, Bool.false_eq_true, if_false]
  exact hall

/-- A string with no single quote is left intact by the quote
stripping. -/
lemma removeSquotes_of_no_squote (s : String) (h : hasSquote s = false) :
    removeSquotes s = s := by
  obtain ⟨l⟩ := s
  unfold hasSquote at h
  rw [List.any_eq_false] at h
  unfold removeSquotes
  congr 1
  apply List.filter_eq_self.mpr
  intro a ha
  have h2 := h a ha
  simpa using h2

/-- Filtering the quote character out leaves no quote to count. -/
lemma count_after_filter (l : List Char) :
    ((l.filter (fun c => decide (c ≠ squoteChar))).filter
      (fun x => x == squoteChar)).length = 0 := by
  induction l with
  | nil => rfl
  | cons c rest ih =>
    by_cases hc : c = squoteChar
    · simp [List.filter_cons, hc, ih]
    · simp [List.filter_cons, hc, ih]

/-- The stripped value contains no single quote at all. -/
lemma countChar_removeSquotes (s : String) :
    countChar (removeSquotes s) squoteChar = 0 := by
  unfold countChar removeSquotes
  exact count_after_filter s.data

/-- The string branch of the renderer always produces the quote-stripped
value between two single quotes. -/
lemma renderVal_str (s : String) :
    renderVal (Val.str s) = "\x27" ++ removeSquotes s ++ "\x27" := by
  unfold renderVal
  by_cases hs : hasSquote s
  · simp [hs]
  · simp only [Bool.not_eq_true] at hs
    simp [hs, removeSquotes_of_no_squote s hs]

/-- `content_has_changed` is the ordered short-circuit composition of its
three witnesses: count first, then version set, then row
membership. -/
lemma content_shape (old new : Option (List Dict)) :
    content_has_changed old new =
      (if _length_changed old new then Except.ok true
       else (_ECS_Version_changed old new).bind
         (fun b => if b then Except.ok true else _lines_changed old new)) := by
  by_cases hl : _length_changed old new = true
  · simp [content_has_changed, hl, pure, Except.pure]
  · simp only [Bool.not_eq_true] at hl
    simp only [content_has_changed, hl, Bool.false_eq_true, if_false]
    cases hv : _ECS_Version_changed old new with
    | error e => rfl
    | ok b =>
      cases b with
      | true => rfl
      | false =>
        simp only [Bind.bind, Except.bind, Bool.false_eq_true, if_false]
        cases hli : _lines_changed old new with
        | error e => rfl
        | ok bb => cases bb <;> rfl

/-! ## Claims -/

/-- C1 (counterexample): the change detector applied to a snapshot and an
identical copy of itself returns true, not false, as soon as the
snapshot carries two distinct `ECS_Version` values: the version witness
compares every pair of the two (equal) version sets and flags the first
unequal pair. -/
theorem c1_counterexample :
    content_has_changed (some snapTwoVersions) (some snapTwoVersions) =
      Except.ok true := rfl

/-- C1 (amended): the change detector applied to a snapshot and an
identical copy of itself returns false whenever all rows of the snapshot
carry one and the same `ECS_Version` value (in particular the version
witness is negative there). -/
theorem c1_selfCompare :
    ∀ (S : List Dict) (v0 : String),
      (∀ d ∈ S, dictGet d "ECS_Version" = some (Val.str v0)) →
      content_has_changed (some S) (some S) = Except.ok false :=
  fun S v0 h => content_self_single S v0 h

/-- C1 (witness): a concrete single-version snapshot compared with
itself. -/
theorem c1_selfCompare_witness :
    content_has_changed (some [sampleCleanRow "8.0.0"])
      (some [sampleCleanRow "8.0.0"]) = Except.ok false :=
  c1_selfCompare [sampleCleanRow "8.0.0"] "8.0.0" (by decide)

/-- C2: on the empty snapshot each generated `CHECK` constraint ends at
its unclosed `ANY (ARRAY[` (the `]))` close is only emitted inside the
per-item loop), so the combined output of `make_sql` and
`make_sql_preload` is not well-formed SQL: the DDL text contains three
opening `[` and no closing `]`, and the insert statement ends in
`VALUES` followed directly by `;`. -/
theorem c2_empty_snapshot_sql :
    _add_constraint "ecs" "elastic_log_schema" "Type" [] =
      Except.ok ("CONSTRAINT \"ecs_elastic_log_schema_Type_oneof\"\n\t\tCHECK (\n\t\t\t\"Type\" = ANY (ARRAY[")
    ∧ (make_sql [] "ecs" "elastic_log_schema" "postgres").map
        (fun s => (countChar s (Char.ofNat 91), countChar s (Char.ofNat 93)))
      = Except.ok (3, 0)
    ∧ make_sql_preload [] "ecs" "elastic_log_schema" "postgres" =
      Except.ok ("\n\nINSERT INTO \"ecs\".\"elastic_log_schema\"\n\t(\n\t\t\"ECS_Version\", \"Indexed\", \"Field_Set\", \"Field\", \"Type\", \"Level\", \"Normalization\", \"Example\", \"Description\"\n\t)\n\t\tVALUES\n\t\t;") :=
  ⟨rfl, rfl, rfl⟩

/-- C3 (counterexample): a run in which change detection raises (here: a
readable cache file whose header lacks `ECS_Version`) exits via
`sys.exit(1)` with the scratch temp file still on disk — the temp file
is not removed on every path. -/
theorem c3_counterexample :
    (main_run parseDetectRaise "NEWBYTES" [(ECS_CSV_FILE, "OLDBYTES")]).exit
      = Except.ok 1
    ∧ fsRead (main_run parseDetectRaise "NEWBYTES"
        [(ECS_CSV_FILE, "OLDBYTES")]).fs ECS_CSV_TEMFILE = some "NEWBYTES" :=
  ⟨rfl, rfl⟩

/-- C3 (amended): the temp file is gone at the end of every run that
reaches the success exit (status 0), and removing an already-absent temp
file is a no-op; on the error paths after download the temp file is left
behind until the entry cleanup of the next run. -/
theorem c3_cleanup :
    (∀ (parse : String → List (List String)) (raw : String) (fs0 : FileSys),
        (main_run parse raw fs0).exit = Except.ok 0 →
        fsRead (main_run parse raw fs0).fs ECS_CSV_TEMFILE = Option.none)
    ∧ (∀ fs : FileSys, fsExists fs ECS_CSV_TEMFILE = false → cleanup fs = fs) :=
  ⟨main_exit0_temp_gone, fun fs h => by simp [cleanup, h]⟩

/-- C3 (witness): a concrete no-change run ends with no temp file, and
cleanup of an empty filesystem is a no-op. -/
theorem c3_cleanup_witness :
    fsRead (main_run parseNoChange "X" [(ECS_CSV_FILE, "Y")]).fs
      ECS_CSV_TEMFILE = Option.none
    ∧ cleanup [] = [] :=
  ⟨c3_cleanup.1 parseNoChange "X" [(ECS_CSV_FILE, "Y")] rfl,
   c3_cleanup.2 [] rfl⟩

/-- C4 (counterexample): when the fetched content fails to load as a
usable snapshot (here: a single line, so no data rows) while the cached
snapshot is empty as well, the run detects no change and exits 0 — not
non-zero as claimed. -/
theorem c4_counterexample :
    readfile (parseBothUnusable "NEWBYTES") = Except.ok []
    ∧ (main_run parseBothUnusable "NEWBYTES"
        [(ECS_CSV_FILE, "OLDBYTES")]).exit = Except.ok 0 :=
  ⟨rfl, rfl⟩

/-- C4 (amended): a run that detects no change exits 0; and when the
cached snapshot is usable and nonempty while the fetched content fails
to load as a usable snapshot (empty rows or a reader exception), the run
terminates with a non-zero status — by an uncaught exception, not by the
advertised validation — and the cache file keeps its old bytes. -/
theorem c4_exit_codes :
    (∀ (parse : String → List (List String)) (raw : String) (fs0 : FileSys)
        (cb : String) (old newRows : List Dict),
        fsRead fs0 ECS_CSV_FILE = some cb →
        readfile (parse cb) = Except.ok old →
        readfile (parse raw) = Except.ok newRows →
        content_has_changed (some old) (some newRows) = Except.ok false →
        (main_run parse raw fs0).exit = Except.ok 0)
    ∧ (∀ (parse : String → List (List String)) (raw : String) (fs0 : FileSys)
        (cb : String) (old : List Dict),
        fsRead fs0 ECS_CSV_FILE = some cb →
        readfile (parse cb) = Except.ok old →
        old ≠ [] →
        (readfile (parse raw) = Except.ok [] ∨
          ∃ e, readfile (parse raw) = Except.error e) →
        (∃ e2, (main_run parse raw fs0).exit = Except.error e2)
          ∧ fsRead (main_run parse raw fs0).fs ECS_CSV_FILE = some cb) :=
  ⟨main_nochange_exit0, main_unusable_new⟩

/-- C4 (witness): a concrete no-change run exits 0; a concrete run with
a nonempty cached snapshot and an unusable fetched file dies with an
uncaught exception and leaves the cache bytes intact. -/
theorem c4_exit_codes_witness :
    (main_run parseNoChange "X" [(ECS_CSV_FILE, "Y")]).exit = Except.ok 0
    ∧ ((∃ e2, (main_run parseNewUnusable "NEWBYTES"
          [(ECS_CSV_FILE, "OLDBYTES")]).exit = Except.error e2)
       ∧ fsRead (main_run parseNewUnusable "NEWBYTES"
          [(ECS_CSV_FILE, "OLDBYTES")]).fs ECS_CSV_FILE = some "OLDBYTES") :=
  ⟨c4_exit_codes.1 parseNoChange "X" [(ECS_CSV_FILE, "Y")] "Y" _ _
      rfl rfl rfl rfl,
   c4_exit_codes.2 parseNewUnusable "NEWBYTES" [(ECS_CSV_FILE, "OLDBYTES")]
      "OLDBYTES" [sampleCleanRow "7.0.0"] rfl rfl (by decide) (Or.inl rfl)⟩

/-- C5: `make_sql_preload` renders an absent value as `NULL`, the
booleans as quoted `true` / `false` literals, and a string as the value
between single quotes with every embedded single quote removed (not
doubled), so the emitted literal never contains an interior quote; a
string without quotes passes through verbatim. -/
theorem c5_value_rendering :
    ∀ s : String,
      renderVal Val.none = "NULL"
      ∧ renderVal (Val.bool true) = "\x27true\x27"
      ∧ renderVal (Val.bool false) = "\x27false\x27"
      ∧ renderVal (Val.str s) = "\x27" ++ removeSquotes s ++ "\x27"
      ∧ countChar (removeSquotes s) squoteChar = 0
      ∧ (hasSquote s = false → removeSquotes s = s) :=
  fun s => ⟨rfl, rfl, rfl, renderVal_str s, countChar_removeSquotes s,
    removeSquotes_of_no_squote s⟩

/-- C5 (witness): a value with an apostrophe is stripped, one without is
kept verbatim. -/
theorem c5_value_rendering_witness :
    renderVal (Val.str "don\x27t") = "\x27dont\x27"
    ∧ removeSquotes "ab" = "ab" :=
  ⟨by rw [(c5_value_rendering "don\x27t").2.2.2.1]; decide,
   (c5_value_rendering "ab").2.2.2.2.2 rfl⟩

/-- C6: `content_has_changed` is the short-circuit composition, in
order, of the count witness, the version witness and the row-hash
witness; the count witness treats an absent new snapshot as no change,
an absent old snapshot as a change, and otherwise compares lengths; and
a positive count witness returns without evaluating the version witness,
observably so because with an absent old snapshot the version witness
would raise `TypeError` while the detector returns true. -/
theorem c6_witness_order :
    ∀ (old new : Option (List Dict)) (o n : List Dict),
      content_has_changed old new =
        (if _length_changed old new then Except.ok true
         else (_ECS_Version_changed old new).bind
           (fun b => if b then Except.ok true else _lines_changed old new))
      ∧ _length_changed old Option.none = false
      ∧ _length_changed Option.none (some n) = true
      ∧ _length_changed (some o) (some n) = decide (o.length ≠ n.length)
      ∧ content_has_changed Option.none (some n) = Except.ok true
      ∧ _ECS_Version_changed Option.none (some n) =
          Except.error "TypeError: NoneType is not iterable" :=
  fun old new o n =>
    ⟨content_shape old new, by cases old <;> rfl, rfl, rfl,
     content_of_length_true _ _ rfl, rfl⟩

/-- C7: `update_content` never completes: its log line evaluates
`oldfile_name.name` on a `str`, raising `AttributeError` before any file
is opened, so no archive is written and the cache is never overwritten;
in particular it raises on a well-formed one-row old snapshot. -/
theorem c7_rotation_crash :
    (∀ (old : List Dict) (raw : String) (fs : FileSys),
        exceptIsOk (update_content old raw fs) = false)
    ∧ update_content [sampleCleanRow "7.0.0"] "NEWBYTES"
        [(ECS_CSV_FILE, "OLDBYTES")] =
      Except.error "AttributeError: str object has no attribute name" :=
  ⟨update_content_not_ok, rfl⟩

/-- C8: for every parsed row the reader coerces the raw `Indexed` text
by non-empty-string truthiness (so the literal text `False` maps to
true), maps `Normalization` and `Example` to `None` exactly on the empty
string, and passes every other field through verbatim. -/
theorem c8_row_cleaning :
    ∀ v0 v1 v2 v3 v4 v5 v6 v7 v8 : String,
      cleanRow (dictOfZip header9 [v0, v1, v2, v3, v4, v5, v6, v7, v8]) =
        Except.ok [("ECS_Version", Val.str v0),
                   ("Indexed", Val.bool (!(v1 == ""))),
                   ("Field_Set", Val.str v2),
                   ("Field", Val.str v3),
                   ("Type", Val.str v4),
                   ("Level", Val.str v5),
                   ("Normalization", if v6 = "" then Val.none else Val.str v6),
                   ("Example", if v7 = "" then Val.none else Val.str v7),
                   ("Description", Val.str v8)] :=
  cleanRow_full

/-- C9 (counterexample): `readfile` does raise on some raw input — a
canonical header followed by a one-cell data row ends in `KeyError`, not
in the empty snapshot. -/
theorem c9_counterexample :
    readfile [header9, ["9.9.9"]] = Except.error "KeyError: Indexed" := rfl

/-- C9 (amended): `readfile` fails soft to the empty snapshot when the
input has fewer than two rows or the header does not have nine columns;
and with the canonical header it returns one dict per data row provided
every data row has at least eight cells. -/
theorem c9_fail_soft :
    (∀ raw : List (List String), raw.length ≤ 1 → readfile raw = Except.ok [])
    ∧ (∀ (h : List String) (t : List (List String)), h.length ≠ 9 →
        readfile (h :: t) = Except.ok [])
    ∧ (∀ rows : List (List String), (∀ r ∈ rows, 8 ≤ r.length) →
        ∃ ds, readfile (header9 :: rows) = Except.ok ds
          ∧ ds.length = rows.length) :=
  ⟨readfile_short, readfile_wrong_columns, readfile_long_rows⟩

/-- C9 (witness): the two fail-soft shapes and a well-formed one-row
file. -/
theorem c9_fail_soft_witness :
    readfile [["x"]] = Except.ok []
    ∧ readfile [["a", "b"], ["c"]] = Except.ok []
    ∧ (∃ ds, readfile [header9, sampleRow "8.0.0"] = Except.ok ds
        ∧ ds.length = 1) :=
  ⟨c9_fail_soft.1 [["x"]] (by decide),
   c9_fail_soft.2.1 ["a", "b"] [["c"]] (by decide),
   c9_fail_soft.2.2 [sampleRow "8.0.0"] (by decide)⟩

/-- C10: with a nine-column canonical header, a data row with fewer than
two cells cannot supply the `Indexed` key, and `readfile` raises
`KeyError` instead of returning the empty snapshot, as soon as every row
before it is long enough to clean. -/
theorem c10_short_row_keyerror :
    ∀ (pre : List (List String)) (r : List String)
      (rest : List (List String)),
      (∀ p ∈ pre, 8 ≤ p.length) → r.length < 2 →
      readfile (header9 :: (pre ++ r :: rest)) =
        Except.error "KeyError: Indexed" :=
  readfile_short_row_error

/-- C10 (witness): an empty data row between well-formed neighbours. -/
theorem c10_short_row_keyerror_witness :
    readfile [header9, [], sampleRow "1.0.0"] =
      Except.error "KeyError: Indexed" :=
  c10_short_row_keyerror [] [] [sampleRow "1.0.0"] (by simp) (by decide)
